/-
  Verification of the Query Resolution Pipeline of `chatbot2.py`
  (agricultural chatbot).

  Shallow embedding: the pure decision logic of the pipeline
  (`search_commodity_prices`, `web_search`, `get_llama_response`,
  `process_query`, `translate_response`) is translated into Lean
  functions.  External collaborators (MongoDB price store, SerpAPI
  search, Ollama completion endpoint, Google translation) are modelled
  by an explicit environment `Env` of oracle functions; a provider that
  raises an exception is modelled by the oracle returning `none`
  (every provider call in the source sits inside a `try`/`except`
  returning `None`).

  `fuzz.ratio` from the fuzzywuzzy library is modelled by the
  Levenshtein ratio it computes: `round (100 * (lensum - dist) / lensum)`
  where `dist` is the edit distance with substitution cost 2, i.e.
  `round (200 * LCS(a,b) / (len a + len b))`.

  The Python case folding is modelled by ASCII case folding (all catalog
  and keyword data in the source is ASCII lowercase or Devanagari,
  which the Python `str.lower` leaves unchanged).

  Calls to the remote collaborators are recorded in an event trace so
  that "source X is attempted / never attempted" properties can be
  stated.
-/
import Mathlib

namespace Chatbot

/-- Python whitespace (`str.split()` / `str.strip()`): space, tab,
newline, carriage return, vertical tab, form feed. -/
def isPyWs (c : Char) : Bool :=
  c = ' ' || c = '\t' || c = '\n' || c = '\r' || c = '\x0b' || c = '\x0c'

/-- Worker for Python `str.split()` (split on runs of whitespace,
no empty tokens); `acc` holds the current token reversed. -/
def splitWsGo : List Char → List Char → List (List Char)
  | [], acc => if acc = [] then [] else [acc.reverse]
  | c :: cs, acc =>
    if isPyWs c then
      (if acc = [] then splitWsGo cs [] else acc.reverse :: splitWsGo cs [])
    else
      splitWsGo cs (c :: acc)

def pyTokensL (l : List Char) : List String :=
  (splitWsGo l []).map String.mk

/-- Python `s.split()`. -/
def pyTokens (s : String) : List String := pyTokensL s.data

def dropTrailingWs (l : List Char) : List Char :=
  (l.reverse.dropWhile isPyWs).reverse

def pyStripL (l : List Char) : List Char :=
  dropTrailingWs (l.dropWhile isPyWs)

/-- Python `s.strip()`. -/
def pyStrip (s : String) : String := String.mk (pyStripL s.data)

/-- Python `s.lower()` (ASCII fold; Devanagari is unaffected, as in Python). -/
def pyLower (s : String) : String := String.mk (s.data.map Char.toLower)

def isPrefixL : List Char → List Char → Bool
  | [], _ => true
  | _ :: _, [] => false
  | a :: as, b :: bs => a = b && isPrefixL as bs

def isInfixL (needle : List Char) : List Char → Bool
  | [] => isPrefixL needle []
  | c :: cs => isPrefixL needle (c :: cs) || isInfixL needle cs

/-- Python `needle in hay` on strings: substring test. -/
def isSubstr (needle hay : String) : Bool :=
  isInfixL needle.data hay.data

/-- One row update of the LCS dynamic program: given the previous row
(`old`, indexed over prefixes of `bs` including the empty prefix), the
character `c` of the other string, and the value `left` already
computed for the new row, produce the new row (without its leading 0). -/
def lcsRowStep (c : Char) : List Char → List Nat → Nat → List Nat
  | [], _, _ => []
  | _ :: _, [], _ => []
  | b :: bs, d :: rest, left =>
    let v := if c = b then d + 1 else max left (rest.headD 0)
    v :: lcsRowStep c bs rest v

/-- Length of a longest common subsequence, by row dynamic programming. -/
def lcsLen (xs ys : List Char) : Nat :=
  (xs.foldl (fun row c => 0 :: lcsRowStep c ys row 0)
    (List.replicate (ys.length + 1) 0)).getLastD 0

/-- Model of fuzzywuzzy `fuzz.ratio`: the Levenshtein ratio
`round (200 * LCS / (len a + len b))` on the 0..100 scale
(rounding half up; 100 for two empty strings). -/
def fuzzScore (a b : String) : Nat :=
  let total := a.data.length + b.data.length
  if total = 0 then 100
  else (400 * lcsLen a.data b.data + total) / (2 * total)

/-- `price_keywords` (chatbot2.py lines 142 and 326). -/
def price_keywords : List String :=
  ["price", "cost", "rate", "value", "prie", "कीमत"]

/-- Price-intent detection over an already case-folded text: some
whitespace token fuzzy-matches some price keyword with score > 80
(chatbot2.py lines 143-147 and 327). -/
def isPriceTokens (t : String) : Bool :=
  price_keywords.any fun kw => (pyTokens t).any fun w => 80 < fuzzScore kw w

/-- Price-intent detection as performed at chatbot2.py line 327:
tokens of `q.lower()` against the price keywords. -/
def is_price_query (q : String) : Bool := isPriceTokens (pyLower q)

/-- The commodity catalog: the built-in default list of
`load_commodities` (chatbot2.py lines 54-64).  The external
`commodity_list.txt` is not part of the repository, so the catalog in
effect is this hardcoded fallback. -/
def commodities : List String :=
  ["banana - green", "beans", "beetroot", "betal leaves", "bhindi", "ladies finger",
   "bitter gourd", "bottle gourd", "brinjal", "cabbage", "capsicum", "carrot",
   "cauliflower", "cucumber", "kheera", "fish", "garlic", "ginger(dry)",
   "ginger(green)", "green chilli", "guar", "little gourd", "kundru", "maize",
   "onion", "paddy", "dhan", "papaya (raw)", "pointed gourd", "parval", "potato",
   "aloo", "pumpkin", "rice", "chawla", "ridgeguard", "tori", "tomato",
   "water melon", "yam", "ratalu", "jack fruit", "lemon", "nimbu", "corn",
   "broccoli", "colacasia", "cluster beans", "raddish", "green peas", "drumstick",
   "wheat"]

/-- `COMMODITY_MAPPING` (chatbot2.py lines 69-87), as an association list. -/
def COMMODITY_MAPPING : List (String × String) :=
  [("okra", "bhindi"),
   ("ladies finger", "bhindi"),
   ("lemon", "nimbu"),
   ("cucumber", "kheera"),
   ("paddy", "dhan"),
   ("rice", "chawla"),
   ("pointed gourd", "parval"),
   ("potato", "aloo"),
   ("ridgeguard", "tori"),
   ("yam", "ratalu"),
   ("brocoli", "broccoli"),
   ("ginger", "ginger(green)"),
   ("dry ginger", "ginger(dry)"),
   ("chilli", "green chilli"),
   ("papaya", "papaya (raw)"),
   ("sugar beet", "beetroot"),
   ("chukandar", "beetroot")]

/-- `COMMODITY_MAPPING.get(name, name)` (chatbot2.py line 162). -/
def resolveSynonym (n : String) : String :=
  (List.lookup n COMMODITY_MAPPING).getD n

/-- A commodity matches the (lowered, stripped) query if it is a
substring of it or some query token fuzzy-matches it with score > 85
(chatbot2.py lines 154-155). -/
def commodityMatchPred (query_lower c : String) : Bool :=
  isSubstr c query_lower || (pyTokens query_lower).any fun w => 85 < fuzzScore c w

/-- First catalog commodity matching the query (chatbot2.py lines 152-157). -/
def matchCommodity (query_lower : String) : Option String :=
  commodities.find? (commodityMatchPred query_lower)

/-- A price record of the `commodity_prices` store.  `modal_price` is
rendered with `toString`, matching Python string interpolation of an
integer value. -/
structure PriceRecord where
  crop : String
  market : String
  district_name : String
  state_name : String
  modal_price : Nat
  unit_of_price : String
  arrival_date : String
  deriving DecidableEq, Repr

/-- Case-insensitive substring test, modelling a Mongo
`{"$regex": pat, "$options": "i"}` filter for a pattern without regex
metacharacters. -/
def ciContains (hay pat : String) : Bool :=
  isSubstr (pyLower pat) (pyLower hay)

/-- A field matches an alternation pattern `a|b|c` if some alternative
occurs in it case-insensitively. -/
def altMatch (field : String) (alts : List String) : Bool :=
  alts.any fun a => ciContains field a

/-- The location filters built at chatbot2.py lines 165-173.  Each
present filter is an alternation of place-name variants.  Note a
"rayagada" hit overwrites the `district_name` key, as Python dict
assignment does. -/
structure LocFilters where
  district_name : Option (List String)
  state_name : Option (List String)
  market : Option (List String)
  deriving DecidableEq, Repr

def location_filters (query_lower : String) : LocFilters :=
  let d0 : Option (List String) :=
    if isSubstr "balasore" query_lower || isSubstr "baleswar" query_lower
        || isSubstr "baleshwar" query_lower then
      some ["Balasore", "Baleswar", "Baleshwar"]
    else none
  let s : Option (List String) :=
    if isSubstr "odisha" query_lower || isSubstr "orissa" query_lower then
      some ["Odisha", "Orissa"]
    else none
  let m : Option (List String) :=
    if isSubstr "hindol" query_lower then some ["Hindol"] else none
  let d : Option (List String) :=
    if isSubstr "rayagada" query_lower then some ["Rayagada"] else d0
  ⟨d, s, m⟩

/-- The record filter of the main store query: crop matches the
resolved commodity, and every present location filter matches
(chatbot2.py lines 177-179). -/
def fullPred (mc : String) (lf : LocFilters) (r : PriceRecord) : Bool :=
  ciContains r.crop mc
    && (match lf.district_name with
        | some alts => altMatch r.district_name alts
        | none => true)
    && (match lf.state_name with
        | some alts => altMatch r.state_name alts
        | none => true)
    && (match lf.market with
        | some alts => altMatch r.market alts
        | none => true)

/-- The record filter of the state-level retry: crop and state only
(chatbot2.py lines 196-199). -/
def statePred (mc : String) (alts : List String) (r : PriceRecord) : Bool :=
  ciContains r.crop mc && altMatch r.state_name alts

/-- Lexicographic strict order on character lists, modelling the
byte-wise string comparison the store uses to sort ISO date strings. -/
def charListLt : List Char → List Char → Bool
  | [], [] => false
  | [], _ :: _ => true
  | _ :: _, [] => false
  | a :: as, b :: bs =>
    if a < b then true else if b < a then false else charListLt as bs

/-- Strict "earlier than" on arrival-date strings. -/
def dateLt (a b : String) : Bool := charListLt a.data b.data

/-- `find_one(filter, sort=[("arrival_date", -1)])`: the first record
of the stable descending sort by arrival date among those matching,
i.e. the earliest-positioned record with maximal arrival date. -/
def findMostRecent (p : PriceRecord → Bool) : List PriceRecord → Option PriceRecord
  | [] => none
  | r :: rs =>
    let rest := findMostRecent p rs
    if p r then
      match rest with
      | none => some r
      | some b => if dateLt r.arrival_date b.arrival_date then some b else some r
    else rest

/-- Python splitting of the arrival date at the letter T, keeping the
first component (the whole string when T is absent). -/
def dateOnly (s : String) : String :=
  String.mk (s.data.takeWhile fun c => c ≠ 'T')

/-- The full-match response sentence (chatbot2.py lines 189-191). -/
def formatFull (r : PriceRecord) : String :=
  "The price of " ++ r.crop ++ " in " ++ r.market ++ ", " ++ r.district_name
    ++ ", " ++ r.state_name ++ " is " ++ toString r.modal_price ++ " "
    ++ r.unit_of_price ++ " as of " ++ dateOnly r.arrival_date ++ "."

/-- The state-level response sentence (chatbot2.py lines 207-209): no
district clause. -/
def formatState (r : PriceRecord) : String :=
  "The price of " ++ r.crop ++ " in " ++ r.market ++ ", " ++ r.state_name
    ++ " is " ++ toString r.modal_price ++ " " ++ r.unit_of_price
    ++ " as of " ++ dateOnly r.arrival_date ++ "."

/-- Events recording calls made to the remote collaborators, plus the
invocations of the price-intent detector (with the text it is applied
to). -/
inductive Ev where
  | translateQ (text : String)
  | priceIntent (text : String)
  | storeFind
  | webCall (searchQuery : String)
  | llamaCall (prompt : String)
  deriving DecidableEq, Repr

/-- One newline-delimited fragment of the Ollama streaming response:
the `response` text and the `done` flag. -/
structure Frag where
  resp : String
  done : Bool
  deriving DecidableEq, Repr

/-- The external collaborators.  `none` models the provider raising an
exception (each such call is wrapped in `try`/`except` in the source).
`db = none` models the price store being unreachable (any `find_one`
raises). -/
structure Env where
  db : Option (List PriceRecord)
  search : String → Option (List String)
  llama : String → Option (List Frag)
  transIn : String → String → Option String
  transOut : String → String → Option String

/-- The two-tier store lookup of `search_commodity_prices` after
commodity resolution (chatbot2.py lines 177-214), with its store-call
events.  If the store is down the first `find_one` raises and the
whole function returns `None`. -/
def storeLookup (dbo : Option (List PriceRecord)) (mc : String) (lf : LocFilters) :
    Option String × List Ev :=
  match dbo with
  | none => (none, [Ev.storeFind])
  | some db =>
    match findMostRecent (fullPred mc lf) db with
    | some r => (some (formatFull r), [Ev.storeFind])
    | none =>
      match lf.state_name with
      | some alts =>
        match findMostRecent (statePred mc alts) db with
        | some r => (some (formatState r), [Ev.storeFind, Ev.storeFind])
        | none => (none, [Ev.storeFind, Ev.storeFind])
      | none => (none, [Ev.storeFind])

/-- `search_commodity_prices` (chatbot2.py lines 137-217), with its
event trace. -/
def search_commodity_prices_t (env : Env) (query : String) :
    Option String × List Ev :=
  let query_lower := pyStrip (pyLower query)
  if isPriceTokens query_lower then
    match matchCommodity query_lower with
    | none => (none, [Ev.priceIntent query])
    | some mc0 =>
      let mc := resolveSynonym mc0
      let lf := location_filters query_lower
      let (res, tr) := storeLookup env.db mc lf
      (res, Ev.priceIntent query :: tr)
  else (none, [Ev.priceIntent query])

def search_commodity_prices (env : Env) (query : String) : Option String :=
  (search_commodity_prices_t env query).1

/-- The query rewrite of `web_search` (chatbot2.py lines 222-224). -/
def webQuery (query : String) (is_price : Bool) : String :=
  if is_price then "current price of " ++ query ++ " today" else query

/-- The currency/unit markers used to select a snippet (line 238). -/
def currencyMarkers : List String := ["rs", "inr", "rupees", "per kg", "per quintal"]

/-- `web_search` (chatbot2.py lines 220-248): rewrite, request, select
the first snippet containing a currency marker, else the first
snippet; empty list or provider error gives `None`. -/
def web_search_t (env : Env) (query : String) (is_price : Bool) :
    Option String × List Ev :=
  let sq := webQuery query is_price
  match env.search sq with
  | none => (none, [Ev.webCall sq])
  | some results =>
    match results with
    | [] => (none, [Ev.webCall sq])
    | r0 :: _ =>
      let chosen := (results.find? fun s =>
        currencyMarkers.any fun u => isSubstr u (pyLower s)).getD r0
      (some chosen, [Ev.webCall sq])

def web_search (env : Env) (query : String) (is_price : Bool) : Option String :=
  (web_search_t env query is_price).1

/-- The instruction template `PROMPT_TEMPLATE` (chatbot2.py lines
94-101), with the user input interpolated. -/
def promptOf (user_input : String) : String :=
  "\nYou are a helpful chatbot focused on agriculture, farming, and agricultural equipment. The user asked: \""
    ++ user_input
    ++ "\"\n- Understand the user\x27s intent.\n- Provide a concise, accurate response related to agriculture, farming, or agricultural equipment.\n- For price queries, suggest checking local markets or government sources if specific data is unavailable.\n- If the query is unclear or outside this scope, politely inform the user that you can only answer agricultural questions.\nResponse:\n"

/-- Concatenate streamed fragments up to and including the first one
flagged `done` (chatbot2.py lines 265-271). -/
def collectFrags : List Frag → String
  | [] => ""
  | f :: fs => f.resp ++ (if f.done then "" else collectFrags fs)

/-- Worker for Python `s.split(sep)[-1]` (`sep` nonempty): scan left
to right, restarting the current segment after each occurrence of
`sep`; the final segment is the result.  `fuel` bounds the recursion
and is chosen large enough never to run out. -/
def splitTailGo (sep : List Char) : Nat → List Char → List Char → List Char
  | 0, rest, acc => acc.reverse ++ rest
  | fuel + 1, rest, acc =>
    match rest with
    | [] => acc.reverse
    | c :: cs =>
      if isPrefixL sep rest then splitTailGo sep fuel (rest.drop sep.length) []
      else splitTailGo sep fuel cs (c :: acc)

/-- Python `s.split(sep)[-1]` for nonempty `sep`: the text after the
last (left-to-right, non-overlapping) occurrence of `sep`. -/
def afterLastMarker (sep l : List Char) : List Char :=
  splitTailGo sep (l.length + 1) l []

/-- `get_llama_response` (chatbot2.py lines 251-277): build the
prompt, drain the stream, keep the text after the last "Response:"
marker, strip it; provider errors give `None`. -/
def get_llama_response_t (env : Env) (user_input : String) :
    Option String × List Ev :=
  let prompt := promptOf user_input
  match env.llama prompt with
  | none => (none, [Ev.llamaCall prompt])
  | some frags =>
    let full := collectFrags frags
    (some (pyStrip (String.mk (afterLastMarker "Response:".data full.data))),
      [Ev.llamaCall prompt])

def get_llama_response (env : Env) (user_input : String) : Option String :=
  (get_llama_response_t env user_input).1

/-- `translate_response` (chatbot2.py lines 351-360): identity for
English, otherwise translate and fall back to the untranslated text on
provider failure. -/
def translate_response (env : Env) (text target_lang : String) : String :=
  if target_lang = "en" then text
  else
    match env.transOut text target_lang with
    | some t => t
    | none => text

/-- Python truthiness of an optional string: `None` and `""` are falsy. -/
def truthy : Option String → Bool
  | none => false
  | some s => s ≠ ""

/-- `agriculture_keywords` (chatbot2.py lines 286-293). -/
def agriculture_keywords : List String :=
  ["agriculture", "farming", "crop", "commodity", "price", "rate", "cost", "equipment",
   "tractor", "harvest", "irrigation", "lady finger", "bhindi", "rice", "wheat", "potato",
   "pests", "insects", "disease", "weeds", "crop protection", "fertilizer", "soil", "seeds",
   "banana", "beans", "beetroot", "cucumber", "fish", "garlic", "ginger", "chilli", "maize",
   "onion", "paddy", "papaya", "lemon", "corn", "broccoli", "peas", "bugs", "vermin",
   "crop damage"]

/-- `hindi_agriculture_keywords` (chatbot2.py lines 294-297). -/
def hindi_agriculture_keywords : List String :=
  ["कृषि", "खेती", "फसल", "कीट", "रोग", "खरपतवार", "उर्वरक", "मिट्टी", "बीज",
   "प्याज", "आलू", "चावल", "गेहूं", "नींबू", "चुकंदर", "कीमत"]

/-- The translation-in call (chatbot2.py lines 309-320): attempted
only when the declared language is not English; `none` covers both
"no call" (English) and translation failure. -/
def transInResult (env : Env) (user_input input_lang : String) : Option String :=
  if input_lang ≠ "en" then env.transIn input_lang user_input else none

/-- The text the rest of the pipeline processes: the translation when
one was produced, otherwise the original input. -/
def queryToProcess (env : Env) (user_input input_lang : String) : String :=
  match transInResult env user_input input_lang with
  | some t => t
  | none => user_input

/-- The agriculture-relevance gate (chatbot2.py lines 299-320): the
per-language keyword check on the original text, or the
English-keyword check on a successful translation. -/
def isAgricultureRelated (env : Env) (user_input input_lang : String) : Bool :=
  (if input_lang = "en" then
      agriculture_keywords.any fun kw => isSubstr kw (pyLower user_input)
    else if input_lang = "hi" then
      hindi_agriculture_keywords.any fun kw => isSubstr kw user_input
    else false)
  || (match transInResult env user_input input_lang with
      | some t => agriculture_keywords.any fun kw => isSubstr kw (pyLower t)
      | none => false)

def emptyQueryMsg : String := "Please enter a valid query."

def refusalMsg : String :=
  "Sorry, I can only answer questions about agriculture and farming related questions."

def noPriceMsg (q : String) : String :=
  "Sorry, I couldn\x27t find recent price data for " ++ q
    ++ ". Try checking local markets or government sources."

def noAnswerMsg : String :=
  "Sorry, I couldn\x27t find an answer. Please try rephrasing your query or check local agricultural sources."

/-- The events of the translation-in attempt. -/
def preTrace (user_input input_lang : String) : List Ev :=
  if input_lang ≠ "en" then [Ev.translateQ user_input] else []

/-- Stages 4-7 of the pipeline (chatbot2.py lines 326-348), applied to
the canonical-language query text, with the event trace. -/
def afterGate (env : Env) (qp input_lang : String) : (String × String) × List Ev :=
  let is_price := is_price_query qp
  let (ca, str) := search_commodity_prices_t env qp
  if truthy ca then
    ((translate_response env (ca.getD "") input_lang, input_lang),
      Ev.priceIntent qp :: str)
  else if is_price then
    let (wr, wtr) := web_search_t env qp true
    if truthy wr then
      ((translate_response env ("From the web: " ++ wr.getD "") input_lang, input_lang),
        Ev.priceIntent qp :: str ++ wtr)
    else
      ((translate_response env (noPriceMsg qp) input_lang, input_lang),
        Ev.priceIntent qp :: str ++ wtr)
  else
    let (lr, ltr) := get_llama_response_t env qp
    if truthy lr && !isSubstr "sorry" (pyLower (lr.getD "")) then
      ((translate_response env (lr.getD "") input_lang, input_lang),
        Ev.priceIntent qp :: str ++ ltr)
    else
      let (wr, wtr) := web_search_t env qp false
      if truthy wr then
        ((translate_response env ("From the web: " ++ wr.getD "") input_lang, input_lang),
          Ev.priceIntent qp :: str ++ ltr ++ wtr)
      else
        ((translate_response env noAnswerMsg input_lang, input_lang),
          Ev.priceIntent qp :: str ++ ltr ++ wtr)

/-- `process_query` (chatbot2.py lines 280-348), with the event trace. -/
def process_query_core (env : Env) (user_input input_lang : String) :
    (String × String) × List Ev :=
  if pyStrip user_input = "" then
    ((translate_response env emptyQueryMsg input_lang, input_lang), [])
  else if isAgricultureRelated env user_input input_lang then
    let qp := queryToProcess env user_input input_lang
    let r := afterGate env qp input_lang
    (r.1, preTrace user_input input_lang ++ r.2)
  else
    ((translate_response env refusalMsg input_lang, input_lang),
      preTrace user_input input_lang)

def process_query (env : Env) (user_input input_lang : String) : String × String :=
  (process_query_core env user_input input_lang).1

end Chatbot

namespace Chatbot

/-- The price record of spec Scenario 1. -/
def bhindiRecord : PriceRecord :=
  { crop := "bhindi", market := "Balasore Mkt", district_name := "Baleswar",
    state_name := "Odisha", modal_price := 2000, unit_of_price := "Rs/Quintal",
    arrival_date := "2024-05-01T00:00:00" }

/-- An environment whose store holds exactly `bhindiRecord` and whose
other providers are irrelevant. -/
def scenario1Env : Env :=
  { db := some [bhindiRecord],
    search := fun _ => none,
    llama := fun _ => none,
    transIn := fun _ _ => none,
    transOut := fun _ _ => none }

/-- An environment for exercising the pipeline on a Hindi query whose
translation differs from the original. -/
def hindiEnv : Env :=
  { db := some [],
    search := fun _ => some [],
    llama := fun _ => none,
    transIn := fun _ t => if t = "कीमत" then some "price of onion" else none,
    transOut := fun _ _ => none }

/-- An environment in which every provider fails (raises). -/
def deadEnv : Env :=
  { db := none,
    search := fun _ => none,
    llama := fun _ => none,
    transIn := fun _ _ => none,
    transOut := fun _ _ => none }

def isWebEv : Ev → Bool
  | Ev.webCall _ => true
  | _ => false

def isLlamaEv : Ev → Bool
  | Ev.llamaCall _ => true
  | _ => false

def isStoreEv : Ev → Bool
  | Ev.storeFind => true
  | _ => false

/-- The texts the price-intent detector was invoked on, in order. -/
def priceIntentTexts (tr : List Ev) : List String :=
  tr.filterMap fun e =>
    match e with
    | Ev.priceIntent t => some t
    | _ => none

/-- The per-language relevance check on the original text, following
the spec words: the query text is compared against the keyword list of
its declared language (English and Hindi have lists; other languages
have none), by exact substring membership. -/
def originalMatchesKeywords (input lang : String) : Bool :=
  if lang = "en" then agriculture_keywords.any fun kw => isSubstr kw (pyLower input)
  else if lang = "hi" then hindi_agriculture_keywords.any fun kw => isSubstr kw input
  else false

/-- Splitting ignores an all-whitespace input up to the pending token. -/
lemma splitWsGo_allWs (w : List Char) (acc : List Char)
    (h : ∀ c ∈ w, isPyWs c = true) :
    splitWsGo w acc = if acc = [] then [] else [acc.reverse] := by
  induction w generalizing acc with
  | nil => rfl
  | cons c cs ih =>
    have hc : isPyWs c = true := h c (List.mem_cons_self c cs)
    have hcs : ∀ x ∈ cs, isPyWs x = true := fun x hx => h x (List.mem_cons_of_mem c hx)
    by_cases hacc : acc = []
    · simp [splitWsGo, hc, hacc, ih [] hcs]
    · simp [splitWsGo, hc, hacc, ih [] hcs]

/-- Trailing whitespace does not change the token split. -/
lemma splitWsGo_append_ws (l : List Char) (w : List Char) (acc : List Char)
    (h : ∀ c ∈ w, isPyWs c = true) :
    splitWsGo (l ++ w) acc = splitWsGo l acc := by
  induction l generalizing acc with
  | nil =>
    rw [List.nil_append, splitWsGo_allWs w acc h]
    rfl
  | cons c cs ih =>
    by_cases hc : isPyWs c <;> by_cases hacc : acc = [] <;>
      simp [splitWsGo, hc, hacc, ih]

/-- Leading whitespace does not change the token split. -/
lemma splitWsGo_dropWhile (l : List Char) :
    splitWsGo (l.dropWhile isPyWs) [] = splitWsGo l [] := by
  induction l with
  | nil => rfl
  | cons c cs ih =>
    by_cases hc : isPyWs c
    · simpa [List.dropWhile_cons, hc, splitWsGo] using ih
    · simp [List.dropWhile_cons, hc]

/-- Python tokenization is invariant under stripping. -/
lemma pyTokensL_strip (l : List Char) : pyTokensL (pyStripL l) = pyTokensL l := by
  unfold pyTokensL pyStripL dropTrailingWs
  congr 1
  have hdecomp : l.dropWhile isPyWs =
      ((l.dropWhile isPyWs).reverse.dropWhile isPyWs).reverse
        ++ ((l.dropWhile isPyWs).reverse.takeWhile isPyWs).reverse := by
    conv_lhs => rw [← List.reverse_reverse (l.dropWhile isPyWs),
      ← List.takeWhile_append_dropWhile (p := isPyWs) (l := (l.dropWhile isPyWs).reverse),
      List.reverse_append]
  have hws : ∀ c ∈ ((l.dropWhile isPyWs).reverse.takeWhile isPyWs).reverse,
      isPyWs c = true := by
    intro c hc
    exact List.mem_takeWhile_imp (List.mem_reverse.mp hc)
  calc splitWsGo ((l.dropWhile isPyWs).reverse.dropWhile isPyWs).reverse []
      = splitWsGo (((l.dropWhile isPyWs).reverse.dropWhile isPyWs).reverse
          ++ ((l.dropWhile isPyWs).reverse.takeWhile isPyWs).reverse) [] :=
        (splitWsGo_append_ws _ _ _ hws).symm
    _ = splitWsGo (l.dropWhile isPyWs) [] := by rw [← hdecomp]
    _ = splitWsGo l [] := splitWsGo_dropWhile l

lemma pyTokens_pyStrip (s : String) : pyTokens (pyStrip s) = pyTokens s := by
  show pyTokensL (pyStripL s.data) = pyTokensL s.data
  exact pyTokensL_strip s.data

/-- The price-intent detector gives the same verdict on the stripped
text: the two detection sites of the source (line 327 and lines
143-147) agree. -/
lemma isPriceTokens_strip (s : String) :
    isPriceTokens (pyStrip s) = isPriceTokens s := by
  unfold isPriceTokens
  rw [pyTokens_pyStrip]

lemma charListLt_self (l : List Char) : charListLt l l = false := by
  induction l with
  | nil => rfl
  | cons c cs ih => simp [charListLt, lt_irrefl, ih]

lemma charListLt_asymm (a b : List Char) (h : charListLt a b = true) :
    charListLt b a = false := by
  induction a generalizing b with
  | nil =>
    cases b with
    | nil => simp [charListLt] at h
    | cons b0 bs => rfl
  | cons a0 as ih =>
    cases b with
    | nil => simp [charListLt] at h
    | cons b0 bs =>
      by_cases hab : a0 < b0
      · have hba : ¬ b0 < a0 := fun hh => absurd (lt_trans hab hh) (lt_irrefl a0)
        simp [charListLt, hab, hba]
      · by_cases hba : b0 < a0
        · simp [charListLt, hab, hba] at h
        · have h' : charListLt as bs = true := by simpa [charListLt, hab, hba] using h
          simp [charListLt, hab, hba, ih bs h']

lemma charListLt_neg_trans (a b c : List Char)
    (h1 : charListLt a b = false) (h2 : charListLt b c = false) :
    charListLt a c = false := by
  induction a generalizing b c with
  | nil =>
    cases b with
    | nil => exact h2
    | cons b0 bs => simp [charListLt] at h1
  | cons a0 as ih =>
    cases c with
    | nil => rfl
    | cons c0 cs =>
      cases b with
      | nil => simp [charListLt] at h2
      | cons b0 bs =>
        by_cases hab : a0 < b0
        · simp [charListLt, hab] at h1
        · by_cases hbc : b0 < c0
          · simp [charListLt, hbc] at h2
          · have hac : ¬ a0 < c0 := fun hh =>
              absurd (lt_of_lt_of_le hh (le_of_not_lt hbc)) hab
            by_cases hba : b0 < a0
            · have hca : c0 < a0 := lt_of_le_of_lt (le_of_not_lt hbc) hba
              simp [charListLt, hac, hca]
            · by_cases hcb : c0 < b0
              · have hca : c0 < a0 := lt_of_lt_of_le hcb (le_of_not_lt hab)
                simp [charListLt, hac, hca]
              · have h1' : charListLt as bs = false := by
                  simpa [charListLt, hab, hba] using h1
                have h2' : charListLt bs cs = false := by
                  simpa [charListLt, hbc, hcb] using h2
                by_cases hca : c0 < a0
                · simp [charListLt, hac, hca]
                · simp [charListLt, hac, hca, ih bs cs h1' h2']

lemma dateLt_self (s : String) : dateLt s s = false := charListLt_self s.data

lemma dateLt_asymm (a b : String) (h : dateLt a b = true) : dateLt b a = false :=
  charListLt_asymm a.data b.data h

lemma dateLt_neg_trans (a b c : String)
    (h1 : dateLt a b = false) (h2 : dateLt b c = false) : dateLt a c = false :=
  charListLt_neg_trans a.data b.data c.data h1 h2

/-- A failed lookup means no record matched. -/
lemma findMostRecent_none (p : PriceRecord → Bool) :
    ∀ db, findMostRecent p db = none → ∀ r ∈ db, p r = false := by
  intro db
  induction db with
  | nil => intro _ r hr; simp at hr
  | cons a rs ih =>
    intro h r hr
    by_cases hp : p a
    · exfalso
      unfold findMostRecent at h
      rw [if_pos hp] at h
      cases hrest : findMostRecent p rs with
      | none => rw [hrest] at h; simp at h
      | some v =>
        rw [hrest] at h
        by_cases hd : dateLt a.arrival_date v.arrival_date <;> simp [hd] at h
    · unfold findMostRecent at h
      rw [if_neg hp] at h
      rcases List.mem_cons.mp hr with rfl | hr'
      · exact Bool.eq_false_iff.mpr hp
      · exact ih h r hr'

/-- A successful lookup returns a matching record no older than any
other matching record in the store. -/
lemma findMostRecent_spec (p : PriceRecord → Bool) :
    ∀ db r, findMostRecent p db = some r →
      r ∈ db ∧ p r = true
        ∧ ∀ x ∈ db, p x = true → dateLt r.arrival_date x.arrival_date = false := by
  intro db
  induction db with
  | nil => intro r h; simp [findMostRecent] at h
  | cons a rs ih =>
    intro r h
    unfold findMostRecent at h
    by_cases hp : p a
    · rw [if_pos hp] at h
      cases hrest : findMostRecent p rs with
      | none =>
        rw [hrest] at h
        simp at h
        subst h
        refine ⟨List.mem_cons_self a rs, hp, ?_⟩
        intro x hx hpx
        rcases List.mem_cons.mp hx with rfl | hx'
        · exact dateLt_self _
        · exact absurd (findMostRecent_none p rs hrest x hx') (by simp [hpx])
      | some b =>
        rw [hrest] at h
        obtain ⟨hbmem, hpb, hbmax⟩ := ih b hrest
        by_cases hlt : dateLt a.arrival_date b.arrival_date
        · have hbr : b = r := by simpa [hlt] using h
          subst hbr
          refine ⟨List.mem_cons_of_mem a hbmem, hpb, ?_⟩
          intro x hx hpx
          rcases List.mem_cons.mp hx with rfl | hx'
          · exact dateLt_asymm _ _ hlt
          · exact hbmax x hx' hpx
        · have har : a = r := by simpa [hlt] using h
          subst har
          refine ⟨List.mem_cons_self a rs, hp, ?_⟩
          intro x hx hpx
          rcases List.mem_cons.mp hx with rfl | hx'
          · exact dateLt_self _
          · exact dateLt_neg_trans _ _ _ (Bool.eq_false_iff.mpr hlt) (hbmax x hx' hpx)
    · rw [if_neg hp] at h
      obtain ⟨hm, hpr, hmax⟩ := ih r h
      refine ⟨List.mem_cons_of_mem a hm, hpr, ?_⟩
      intro x hx hpx
      rcases List.mem_cons.mp hx with rfl | hx'
      · exact absurd hpx (by simp [hp])
      · exact hmax x hx' hpx

/-- If some record matches, the lookup succeeds. -/
lemma findMostRecent_isSome (p : PriceRecord → Bool) :
    ∀ db, (∃ x ∈ db, p x = true) → (findMostRecent p db).isSome = true := by
  intro db
  induction db with
  | nil => rintro ⟨x, hx, _⟩; simp at hx
  | cons a rs ih =>
    rintro ⟨x, hx, hpx⟩
    unfold findMostRecent
    by_cases hp : p a
    · rw [if_pos hp]
      cases findMostRecent p rs with
      | none => rfl
      | some b =>
        by_cases hlt : dateLt a.arrival_date b.arrival_date <;> simp [hlt]
    · rw [if_neg hp]
      rcases List.mem_cons.mp hx with rfl | hx'
      · exact absurd hpx (by simp [hp])
      · exact ih ⟨x, hx', hpx⟩

/-- The web source records exactly one provider call. -/
lemma web_search_t_trace (env : Env) (q : String) (b : Bool) :
    (web_search_t env q b).2 = [Ev.webCall (webQuery q b)] := by
  cases h : env.search (webQuery q b) with
  | none => simp [web_search_t, h]
  | some results => cases results <;> simp [web_search_t, h]

/-- The generative source records exactly one provider call. -/
lemma get_llama_response_t_trace (env : Env) (q : String) :
    (get_llama_response_t env q).2 = [Ev.llamaCall (promptOf q)] := by
  cases h : env.llama (promptOf q) with
  | none => simp [get_llama_response_t, h]
  | some frags => simp [get_llama_response_t, h]

/-- The store lookup records one or two store calls. -/
lemma storeLookup_trace (dbo : Option (List PriceRecord)) (mc : String) (lf : LocFilters) :
    (storeLookup dbo mc lf).2 = [Ev.storeFind]
      ∨ (storeLookup dbo mc lf).2 = [Ev.storeFind, Ev.storeFind] := by
  rcases dbo with _ | db
  · left; rfl
  · cases h1 : findMostRecent (fullPred mc lf) db with
    | some r => left; simp [storeLookup, h1]
    | none =>
      cases h2 : lf.state_name with
      | none => left; simp [storeLookup, h1, h2]
      | some alts =>
        cases h3 : findMostRecent (statePred mc alts) db with
        | some r => right; simp [storeLookup, h1, h2, h3]
        | none => right; simp [storeLookup, h1, h2, h3]

/-- Every event of the structured source is a price-intent invocation
on its argument or a store call. -/
lemma search_t_trace_mem (env : Env) (q : String) :
    ∀ e ∈ (search_commodity_prices_t env q).2,
      e = Ev.priceIntent q ∨ e = Ev.storeFind := by
  intro e he
  simp only [search_commodity_prices_t] at he
  by_cases hip : isPriceTokens (pyStrip (pyLower q))
  · rw [if_pos hip] at he
    cases hmc : matchCommodity (pyStrip (pyLower q)) with
    | none =>
      rw [hmc] at he
      simp at he
      left; exact he
    | some mc0 =>
      rw [hmc] at he
      simp at he
      rcases he with rfl | he'
      · left; rfl
      · right
        rcases storeLookup_trace env.db (resolveSynonym mc0)
            (location_filters (pyStrip (pyLower q))) with h | h <;>
          rw [h] at he' <;> simp at he' <;> exact he'
  · rw [if_neg hip] at he
    simp at he
    left; exact he

/-- When the detector (as invoked at line 327) sees no price intent,
the structured source returns no data after its own detector run. -/
lemma search_t_nonprice (env : Env) (q : String) (hp : is_price_query q = false) :
    search_commodity_prices_t env q = (none, [Ev.priceIntent q]) := by
  unfold search_commodity_prices_t
  have h : isPriceTokens (pyStrip (pyLower q)) = false := by
    rw [isPriceTokens_strip]; exact hp
  rw [if_neg (by simp [h])]

lemma priceIntentTexts_append (a b : List Ev) :
    priceIntentTexts (a ++ b) = priceIntentTexts a ++ priceIntentTexts b :=
  List.filterMap_append a b _

lemma pit_preTrace (i l : String) : priceIntentTexts (preTrace i l) = [] := by
  unfold preTrace
  split <;> rfl

lemma pit_web (env : Env) (q : String) (b : Bool) :
    priceIntentTexts (web_search_t env q b).2 = [] := by
  rw [web_search_t_trace]; rfl

lemma pit_llama (env : Env) (q : String) :
    priceIntentTexts (get_llama_response_t env q).2 = [] := by
  rw [get_llama_response_t_trace]; rfl

lemma pit_store (dbo : Option (List PriceRecord)) (mc : String) (lf : LocFilters) :
    priceIntentTexts (storeLookup dbo mc lf).2 = [] := by
  rcases storeLookup_trace dbo mc lf with h | h <;> rw [h] <;> rfl

/-- The structured source invokes the detector exactly once, on its
argument. -/
lemma pit_search (env : Env) (q : String) :
    priceIntentTexts (search_commodity_prices_t env q).2 = [q] := by
  by_cases hip : isPriceTokens (pyStrip (pyLower q))
  · cases hmc : matchCommodity (pyStrip (pyLower q)) with
    | none => simp [search_commodity_prices_t, hip, hmc, priceIntentTexts]
    | some mc0 =>
      have hst := pit_store env.db (resolveSynonym mc0)
        (location_filters (pyStrip (pyLower q)))
      simp only [priceIntentTexts] at hst
      simp [search_commodity_prices_t, hip, hmc, priceIntentTexts, hst]
  · simp [search_commodity_prices_t, hip, priceIntentTexts]

lemma pit_cons_pi (t : String) (l : List Ev) :
    priceIntentTexts (Ev.priceIntent t :: l) = t :: priceIntentTexts l := rfl

lemma truthy_none : truthy none = false := rfl

/-- Every branch of the post-gate pipeline returns the declared input
language as second component. -/
lemma afterGate_lang (env : Env) (qp lang : String) :
    (afterGate env qp lang).1.2 = lang := by
  rcases hs : search_commodity_prices_t env qp with ⟨ca, str⟩
  rcases hw1 : web_search_t env qp true with ⟨w1, t1⟩
  rcases hl : get_llama_response_t env qp with ⟨lr, ltr⟩
  rcases hw2 : web_search_t env qp false with ⟨w2, t2⟩
  simp only [afterGate, hs, hw1, hl, hw2]
  split_ifs <;> rfl

lemma core_trace (env : Env) (input lang : String)
    (hne : pyStrip input ≠ "") (hag : isAgricultureRelated env input lang = true) :
    (process_query_core env input lang).2
      = preTrace input lang
        ++ (afterGate env (queryToProcess env input lang) lang).2 := by
  simp only [process_query_core]
  rw [if_neg hne, if_pos hag]

lemma core_refusal (env : Env) (input lang : String)
    (hne : pyStrip input ≠ "") (hag : isAgricultureRelated env input lang = false) :
    process_query_core env input lang
      = ((translate_response env refusalMsg lang, lang), preTrace input lang) := by
  simp only [process_query_core]
  rw [if_neg hne, if_neg (by simp [hag])]

/-- With price intent and no structured answer, the post-gate trace is
the detector run, the store trace, and one web call — no generative
call. -/
lemma afterGate_price (env : Env) (qp lang : String)
    (hp : is_price_query qp = true)
    (hs : search_commodity_prices env qp = none) :
    (afterGate env qp lang).2
      = Ev.priceIntent qp :: (search_commodity_prices_t env qp).2
          ++ [Ev.webCall (webQuery qp true)] := by
  rcases hst : search_commodity_prices_t env qp with ⟨ca, str⟩
  have hca : ca = none := by
    have h := hs
    unfold search_commodity_prices at h
    rw [hst] at h
    exact h
  subst hca
  rcases hw : web_search_t env qp true with ⟨wr, wtr⟩
  have hwt : wtr = [Ev.webCall (webQuery qp true)] := by
    have h := web_search_t_trace env qp true
    rw [hw] at h
    exact h
  subst hwt
  simp only [afterGate, hst, hw]
  split_ifs <;> simp_all [truthy]

/-- Without price intent, a generative call occurs before any web
call in the post-gate trace. -/
lemma afterGate_nonprice_llama (env : Env) (qp lang : String)
    (hp : is_price_query qp = false) :
    ((afterGate env qp lang).2.takeWhile fun e => !isWebEv e).any isLlamaEv = true := by
  rcases hl : get_llama_response_t env qp with ⟨lr, ltr⟩
  have hlt : ltr = [Ev.llamaCall (promptOf qp)] := by
    have h := get_llama_response_t_trace env qp
    rw [hl] at h
    exact h
  subst hlt
  rcases hw : web_search_t env qp false with ⟨wr, wtr⟩
  have hwt : wtr = [Ev.webCall (webQuery qp false)] := by
    have h := web_search_t_trace env qp false
    rw [hw] at h
    exact h
  subst hwt
  simp only [afterGate, search_t_nonprice env qp hp, hl, hw]
  split_ifs <;> simp_all [truthy, isWebEv, isLlamaEv, List.takeWhile]

/-- The full post-gate trace invokes the detector exactly twice, both
times on the processed query text. -/
lemma pit_afterGate (env : Env) (qp lang : String) :
    priceIntentTexts (afterGate env qp lang).2 = [qp, qp] := by
  have hsp := pit_search env qp
  rcases hst : search_commodity_prices_t env qp with ⟨ca, str⟩
  rw [hst] at hsp
  simp only [priceIntentTexts] at hsp
  rcases hw1 : web_search_t env qp true with ⟨w1, t1⟩
  have ht1 : t1 = [Ev.webCall (webQuery qp true)] := by
    have h := web_search_t_trace env qp true
    rw [hw1] at h
    exact h
  subst ht1
  rcases hl : get_llama_response_t env qp with ⟨lr, ltr⟩
  have hlt : ltr = [Ev.llamaCall (promptOf qp)] := by
    have h := get_llama_response_t_trace env qp
    rw [hl] at h
    exact h
  subst hlt
  rcases hw2 : web_search_t env qp false with ⟨w2, t2⟩
  have ht2 : t2 = [Ev.webCall (webQuery qp false)] := by
    have h := web_search_t_trace env qp false
    rw [hw2] at h
    exact h
  subst ht2
  simp only [afterGate, hst, hw1, hl, hw2]
  split_ifs <;>
    simp [pit_cons_pi, priceIntentTexts_append, hsp, priceIntentTexts, isWebEv]

lemma preTrace_mem (i l : String) : ∀ e ∈ preTrace i l, e = Ev.translateQ i := by
  unfold preTrace
  split <;> simp

/-- If every event of a prefix is neither a web nor a generative call,
a "generative before web" property of the tail lifts to the whole
trace. -/
lemma any_llama_takeWhile_append (l1 l2 : List Ev)
    (h1 : ∀ e ∈ l1, isWebEv e = false ∧ isLlamaEv e = false)
    (h2 : (l2.takeWhile fun e => !isWebEv e).any isLlamaEv = true) :
    ((l1 ++ l2).takeWhile fun e => !isWebEv e).any isLlamaEv = true := by
  induction l1 with
  | nil => simpa using h2
  | cons a l ih =>
    obtain ⟨hw, hl⟩ := h1 a (List.mem_cons_self a l)
    have hrest := ih fun e he => h1 e (List.mem_cons_of_mem a he)
    simp only [List.cons_append]
    rw [List.takeWhile_cons]
    simp [hw, hl, hrest]

end Chatbot

namespace Chatbot

/-- Claim C1: for every agriculture-related query with price intent
for which the structured price store returns no record, the pipeline
attempts Web Search and never attempts the Generative Fallback; for
every agriculture-related query without price intent, the Generative
Fallback is attempted before Web Search. -/
theorem C1_fallback_ordering (env : Env) (input lang : String)
    (hne : pyStrip input ≠ "")
    (hag : isAgricultureRelated env input lang = true) :
    (is_price_query (queryToProcess env input lang) = true →
      search_commodity_prices env (queryToProcess env input lang) = none →
        (process_query_core env input lang).2.any isWebEv = true
          ∧ (process_query_core env input lang).2.any isLlamaEv = false)
    ∧ (is_price_query (queryToProcess env input lang) = false →
        ((process_query_core env input lang).2.takeWhile fun e => !isWebEv e).any
          isLlamaEv = true) := by
  constructor
  · intro hp hs
    rw [core_trace env input lang hne hag,
      afterGate_price env (queryToProcess env input lang) lang hp hs]
    constructor
    · refine List.any_eq_true.mpr
        ⟨Ev.webCall (webQuery (queryToProcess env input lang) true), ?_, rfl⟩
      simp
    · refine List.any_eq_false.mpr ?_
      intro e he
      have hform : e ∈ preTrace input lang
          ∨ e = Ev.priceIntent (queryToProcess env input lang)
          ∨ e ∈ (search_commodity_prices_t env (queryToProcess env input lang)).2
          ∨ e = Ev.webCall (webQuery (queryToProcess env input lang) true) := by
        simpa [List.mem_append, List.mem_cons, or_assoc] using he
      rcases hform with hpre | rfl | hsr | rfl
      · rw [preTrace_mem input lang e hpre]
        simp [isLlamaEv]
      · simp [isLlamaEv]
      · rcases search_t_trace_mem env (queryToProcess env input lang) e hsr with
          rfl | rfl <;> simp [isLlamaEv]
      · simp [isLlamaEv]
  · intro hp
    rw [core_trace env input lang hne hag]
    refine any_llama_takeWhile_append _ _ ?_
      (afterGate_nonprice_llama env (queryToProcess env input lang) lang hp)
    intro e he
    rw [preTrace_mem input lang e he]
    exact ⟨rfl, rfl⟩

/-- Witness for C1 on the concrete price query "price of mango"
(agriculture-related by the "price" keyword, price intent, not in the
catalog, so no structured record): a web call occurs and no
generative call occurs. -/
theorem C1_fallback_ordering_witness :
    (process_query_core deadEnv "price of mango" "en").2.any isWebEv = true
      ∧ (process_query_core deadEnv "price of mango" "en").2.any isLlamaEv = false :=
  (C1_fallback_ordering deadEnv "price of mango" "en" (by decide) (by decide)).1
    (by decide) (by decide)

/-- Claim C2: a query is classified agriculture-related iff the
original text matches its per-language keyword list or the
canonical-language translation matches the English list, by exact
substring membership; a query failing the gate gets the fixed refusal
message (translated) and no price-store, web, or generative call is
made. -/
theorem C2_relevance_gate (env : Env) (input lang : String) :
    (isAgricultureRelated env input lang = true ↔
      originalMatchesKeywords input lang = true
        ∨ ∃ t, transInResult env input lang = some t
            ∧ (agriculture_keywords.any fun kw => isSubstr kw (pyLower t)) = true)
    ∧ (pyStrip input ≠ "" → isAgricultureRelated env input lang = false →
        process_query env input lang = (translate_response env refusalMsg lang, lang)
          ∧ ∀ e ∈ (process_query_core env input lang).2,
              isStoreEv e = false ∧ isWebEv e = false ∧ isLlamaEv e = false) := by
  constructor
  · unfold isAgricultureRelated originalMatchesKeywords
    cases htr : transInResult env input lang with
    | none => simp [htr]
    | some t => simp [htr]
  · intro hne hag
    constructor
    · show (process_query_core env input lang).1 = _
      rw [core_refusal env input lang hne hag]
    · intro e he
      rw [core_refusal env input lang hne hag] at he
      simp only at he
      rw [preTrace_mem input lang e he]
      exact ⟨rfl, rfl, rfl⟩

/-- Witness for C2 on the concrete out-of-scope English query of spec
Scenario 5. -/
theorem C2_relevance_gate_witness :
    process_query scenario1Env "what movie should I watch" "en"
        = (translate_response scenario1Env refusalMsg "en", "en")
      ∧ ∀ e ∈ (process_query_core scenario1Env "what movie should I watch" "en").2,
          isStoreEv e = false ∧ isWebEv e = false ∧ isLlamaEv e = false :=
  (C2_relevance_gate scenario1Env "what movie should I watch" "en").2
    (by decide) (by decide)

/-- Claim C3: on the query "price of bhindi in balasore" with the
Scenario 1 record in the store, the structured source returns exactly
the specified sentence. -/
theorem C3_scenario1 :
    search_commodity_prices scenario1Env "price of bhindi in balasore"
      = some "The price of bhindi in Balasore Mkt, Baleswar, Odisha is 2000 Rs/Quintal as of 2024-05-01." := by
  decide

/-- Claim C4: the structured source selects the single most recent
matching record by arrival date, and when the full filter set matches
nothing and a state filter is present it retries with only the
commodity and state filter before returning no data. -/
theorem C4_most_recent_two_tier :
    (∀ p db r, findMostRecent p db = some r →
        r ∈ db ∧ p r = true
          ∧ ∀ x ∈ db, p x = true → dateLt r.arrival_date x.arrival_date = false)
    ∧ (∀ (p : PriceRecord → Bool) db, (∃ x ∈ db, p x = true) →
        (findMostRecent p db).isSome = true)
    ∧ (∀ db mc lf r, findMostRecent (fullPred mc lf) db = some r →
        (storeLookup (some db) mc lf).1 = some (formatFull r))
    ∧ (∀ db mc lf alts, findMostRecent (fullPred mc lf) db = none →
        lf.state_name = some alts →
        (storeLookup (some db) mc lf).1
          = (findMostRecent (statePred mc alts) db).map formatState)
    ∧ (∀ db mc lf, findMostRecent (fullPred mc lf) db = none →
        lf.state_name = none → (storeLookup (some db) mc lf).1 = none) := by
  refine ⟨fun p db r h => findMostRecent_spec p db r h,
    fun p db h => findMostRecent_isSome p db h, ?_, ?_, ?_⟩
  · intro db mc lf r h
    simp [storeLookup, h]
  · intro db mc lf alts h halts
    cases h2 : findMostRecent (statePred mc alts) db with
    | none => simp [storeLookup, h, halts, h2]
    | some r => simp [storeLookup, h, halts, h2]
  · intro db mc lf h hnone
    simp [storeLookup, h, hnone]

/-- Witness for C4: the Scenario 1 record is returned as most recent
for a trivially matching filter, and the state-level retry is taken
when the district filter excludes it but the state filter matches. -/
theorem C4_most_recent_two_tier_witness :
    (bhindiRecord ∈ [bhindiRecord]
      ∧ fullPred "bhindi" ⟨none, none, none⟩ bhindiRecord = true
      ∧ ∀ x ∈ [bhindiRecord], fullPred "bhindi" ⟨none, none, none⟩ x = true →
          dateLt bhindiRecord.arrival_date x.arrival_date = false)
    ∧ (storeLookup (some [bhindiRecord]) "bhindi"
          ⟨some ["Rayagada"], some ["Odisha", "Orissa"], none⟩).1
        = (findMostRecent (statePred "bhindi" ["Odisha", "Orissa"])
            [bhindiRecord]).map formatState :=
  ⟨C4_most_recent_two_tier.1 (fullPred "bhindi" ⟨none, none, none⟩)
      [bhindiRecord] bhindiRecord (by decide),
   C4_most_recent_two_tier.2.2.2.1 [bhindiRecord] "bhindi"
      ⟨some ["Rayagada"], some ["Odisha", "Orissa"], none⟩
      ["Odisha", "Orissa"] (by decide) rfl⟩

/-- Claim C5: a query has price intent iff some whitespace token of it
has fuzzy similarity strictly above 80 to some configured price
keyword; an exact keyword token always gives price intent, and a query
all of whose tokens score at most 80 against every keyword does not. -/
theorem C5_price_intent_iff :
    (∀ q, is_price_query q = true ↔
        ∃ w ∈ pyTokens (pyLower q), ∃ kw ∈ price_keywords, 80 < fuzzScore kw w)
    ∧ (∀ q kw, kw ∈ price_keywords → kw ∈ pyTokens (pyLower q) →
        is_price_query q = true)
    ∧ (∀ q, (∀ w ∈ pyTokens (pyLower q), ∀ kw ∈ price_keywords,
          fuzzScore kw w ≤ 80) → is_price_query q = false) := by
  have hiff : ∀ q, is_price_query q = true ↔
      ∃ w ∈ pyTokens (pyLower q), ∃ kw ∈ price_keywords, 80 < fuzzScore kw w := by
    intro q
    unfold is_price_query isPriceTokens
    simp only [List.any_eq_true, decide_eq_true_eq]
    constructor
    · rintro ⟨kw, hkw, w, hw, h⟩
      exact ⟨w, hw, kw, hkw, h⟩
    · rintro ⟨w, hw, kw, hkw, h⟩
      exact ⟨kw, hkw, w, hw, h⟩
  refine ⟨hiff, ?_, ?_⟩
  · intro q kw hkw hmem
    refine (hiff q).mpr ⟨kw, hmem, kw, hkw, ?_⟩
    have hself : ∀ k ∈ price_keywords, 80 < fuzzScore k k := by decide
    exact hself kw hkw
  · intro q hall
    cases hb : is_price_query q with
    | false => rfl
    | true =>
      obtain ⟨w, hw, kw, hkw, h⟩ := (hiff q).mp hb
      exact absurd h (Nat.not_lt.mpr (hall w hw kw hkw))

/-- Witness for C5: "price of onion" tokenizes to a list containing
the exact keyword "price", hence has price intent. -/
theorem C5_price_intent_iff_witness : is_price_query "price of onion" = true :=
  C5_price_intent_iff.2.1 "price of onion" "price" (by decide) (by decide)

/-- Claim C6 as stated is false: on the Hindi query "कीमत" whose
translation is "price of onion", the detector is invoked twice but
both times on the translated text, never on the original user text. -/
theorem C6_counterexample :
    priceIntentTexts (process_query_core hindiEnv "कीमत" "hi").2
        = ["price of onion", "price of onion"]
      ∧ "कीमत" ∉ priceIntentTexts (process_query_core hindiEnv "कीमत" "hi").2 := by
  decide

/-- Claim C6 (amended): price-intent detection is invoked exactly
twice per gate-passing request, both times against the processed query
text (the canonical-language translation when one succeeded, otherwise
the original input), not once against the original and once against
the translation. -/
theorem C6_price_intent_invocations (env : Env) (input lang : String)
    (hne : pyStrip input ≠ "")
    (hag : isAgricultureRelated env input lang = true) :
    priceIntentTexts (process_query_core env input lang).2
      = [queryToProcess env input lang, queryToProcess env input lang] := by
  rw [core_trace env input lang hne hag, priceIntentTexts_append, pit_preTrace,
    pit_afterGate]
  rfl

/-- Witness for the amended C6 on the Hindi scenario environment. -/
theorem C6_price_intent_invocations_witness :
    priceIntentTexts (process_query_core hindiEnv "कीमत" "hi").2
      = [queryToProcess hindiEnv "कीमत" "hi", queryToProcess hindiEnv "कीमत" "hi"] :=
  C6_price_intent_invocations hindiEnv "कीमत" "hi" (by decide) (by decide)

/-- Claim C7: commodity matching scans the catalog in order and
returns the first entry that is a substring of the query or
fuzzy-matches a token above 85; the match is resolved through the
synonym map exactly when it is a key, and the resolved name is what
the store lookup uses. -/
theorem C7_commodity_matching :
    (∀ ql c, matchCommodity ql = some c →
        commodityMatchPred ql c = true
          ∧ ∃ pre post, commodities = pre ++ c :: post
              ∧ ∀ x ∈ pre, commodityMatchPred ql x = false)
    ∧ (∀ ql, (∃ c ∈ commodities, commodityMatchPred ql c = true) →
        (matchCommodity ql).isSome = true)
    ∧ (∀ n t, List.lookup n COMMODITY_MAPPING = some t → resolveSynonym n = t)
    ∧ (∀ n, List.lookup n COMMODITY_MAPPING = none → resolveSynonym n = n)
    ∧ (∀ env q mc, isPriceTokens (pyStrip (pyLower q)) = true →
        matchCommodity (pyStrip (pyLower q)) = some mc →
        search_commodity_prices env q
          = (storeLookup env.db (resolveSynonym mc)
              (location_filters (pyStrip (pyLower q)))).1) := by
  refine ⟨?_, ?_, ?_, ?_, ?_⟩
  · intro ql c h
    obtain ⟨hpred, pre, post, hsplit, hprev⟩ := List.find?_eq_some.mp h
    exact ⟨hpred, pre, post, hsplit, fun x hx => by simpa using hprev x hx⟩
  · rintro ql ⟨c, hc, hpred⟩
    exact List.find?_isSome.mpr ⟨c, hc, hpred⟩
  · intro n t h
    unfold resolveSynonym
    rw [h]
    rfl
  · intro n h
    unfold resolveSynonym
    rw [h]
    rfl
  · intro env q mc hip hmc
    unfold search_commodity_prices search_commodity_prices_t
    simp [hip, hmc]

/-- Witness for C7: "bhindi" is the first catalog match for the
Scenario 1 query. -/
theorem C7_commodity_matching_witness :
    commodityMatchPred "price of bhindi in balasore" "bhindi" = true
      ∧ ∃ pre post, commodities = pre ++ "bhindi" :: post
          ∧ ∀ x ∈ pre, commodityMatchPred "price of bhindi in balasore" x = false :=
  C7_commodity_matching.1 "price of bhindi in balasore" "bhindi" (by decide)

/-- Claim C8: synonym resolution is idempotent, already-canonical
names (synonym-map targets, or catalog members that are not keys) are
returned unchanged. -/
theorem C8_synonym_idempotent :
    (∀ n, resolveSynonym (resolveSynonym n) = resolveSynonym n)
    ∧ (∀ n, n ∈ COMMODITY_MAPPING.map Prod.snd → resolveSynonym n = n)
    ∧ (∀ c, c ∈ commodities → List.lookup c COMMODITY_MAPPING = none →
        resolveSynonym c = c) := by
  have hval : ∀ v ∈ COMMODITY_MAPPING.map Prod.snd,
      List.lookup v COMMODITY_MAPPING = none := by decide
  have hres : ∀ n, n ∈ COMMODITY_MAPPING.map Prod.snd → resolveSynonym n = n := by
    intro n hn
    unfold resolveSynonym
    rw [hval n hn]
    rfl
  refine ⟨?_, hres, ?_⟩
  · intro n
    cases h : List.lookup n COMMODITY_MAPPING with
    | none => simp [resolveSynonym, h]
    | some v =>
      have hv : v ∈ COMMODITY_MAPPING.map Prod.snd := by
        obtain ⟨l1, l2, hsplit, _⟩ := List.lookup_eq_some_iff.mp h
        rw [hsplit]
        simp
      have h1 : resolveSynonym n = v := by
        unfold resolveSynonym
        rw [h]
        rfl
      rw [h1, hres v hv]
  · intro c _ h
    simp [resolveSynonym, h]

/-- Witness for C8: "bhindi" is a synonym-map target and resolves to
itself. -/
theorem C8_synonym_idempotent_witness : resolveSynonym "bhindi" = "bhindi" :=
  C8_synonym_idempotent.2.1 "bhindi" (by decide)

/-- Claim C9: each answer source is total and returns "no data"
whenever its backing provider raises, never propagating an exception
to the orchestrator. -/
theorem C9_fail_soft :
    (∀ env q, env.db = none → search_commodity_prices env q = none)
    ∧ (∀ env q b, env.search (webQuery q b) = none → web_search env q b = none)
    ∧ (∀ env q, env.llama (promptOf q) = none → get_llama_response env q = none) := by
  refine ⟨?_, ?_, ?_⟩
  · intro env q h
    unfold search_commodity_prices search_commodity_prices_t
    by_cases hip : isPriceTokens (pyStrip (pyLower q))
    · cases hmc : matchCommodity (pyStrip (pyLower q)) with
      | none => simp [hip, hmc]
      | some mc0 => simp [hip, hmc, storeLookup, h]
    · simp [hip]
  · intro env q b h
    unfold web_search web_search_t
    simp [h]
  · intro env q h
    unfold get_llama_response get_llama_response_t
    simp [h]

/-- Witness for C9 in the all-providers-down environment. -/
theorem C9_fail_soft_witness :
    search_commodity_prices deadEnv "price of bhindi" = none
      ∧ web_search deadEnv "pests" false = none
      ∧ get_llama_response deadEnv "pests" = none :=
  ⟨C9_fail_soft.1 deadEnv "price of bhindi" rfl,
   C9_fail_soft.2.1 deadEnv "pests" false rfl,
   C9_fail_soft.2.2 deadEnv "pests" rfl⟩

/-- Claim C10: on every control path, `process_query` returns the
declared input language unchanged as the second component. -/
theorem C10_lang_passthrough (env : Env) (input lang : String) :
    (process_query env input lang).2 = lang := by
  unfold process_query process_query_core
  by_cases h1 : pyStrip input = ""
  · rw [if_pos h1]
  · rw [if_neg h1]
    by_cases h2 : isAgricultureRelated env input lang
    · rw [if_pos h2]
      exact afterGate_lang env (queryToProcess env input lang) lang
    · rw [if_neg h2]

end Chatbot
